import Mathlib

/-!
Verification of the simple-proxy-id forwarding-and-policy core.

The CORS plugin is embedded from `src/plugins/cors.js`.  The forwarding
engine, path rewrite engine and attack detector are modelled from the
specification, since their source files (`src/index.js`,
`src/plugins/attack-detector.js`) are not part of the snapshot; only their
tests and type declarations are.
-/

/- ## CORS plugin (embedded from src/plugins/cors.js) -/

/-- JavaScript value supplied as the `origin` option of `createCors`.
`absent` is `undefined`; `falsy` stands for the remaining falsy values
(`null`, `0`, `false`, `NaN`); the empty string is represented as
`str ""` and is falsy as well; `otherTruthy` stands for a truthy value
that is none of string, array or function (e.g. the number `123`). -/
inductive OriginOpt where
  | absent
  | falsy
  | str (s : String)
  | arr (xs : List String)
  | pred (f : String → Except String Bool)
  | otherTruthy

/-- JavaScript value supplied as the `methods` or `allowedHeaders` option.
`absent` is `undefined`; `falsy` stands for the falsy values (`null`, `0`,
`''`, `false`); `arr` is an array (possibly empty — an empty array is
truthy in JavaScript); `nonArr` is a truthy non-array such as the string
`'GET'`. -/
inductive OptVal where
  | absent
  | falsy
  | arr (xs : List String)
  | nonArr

/-- JavaScript truthiness of an `origin` option value. -/
def OriginOpt.isTruthy : OriginOpt → Bool
  | .absent => false
  | .falsy => false
  | .str s => !(s == "")
  | .arr _ => true
  | .pred _ => true
  | .otherTruthy => true

/-- JavaScript truthiness of a `methods`/`allowedHeaders` option value. -/
def OptVal.isTruthy : OptVal → Bool
  | .absent => false
  | .falsy => false
  | .arr _ => true
  | .nonArr => true

/-- `options.origin || '*'` (cors.js line 18). -/
def normalizeOrigin (o : OriginOpt) : OriginOpt :=
  if o.isTruthy then o else .str "*"

/-- `options.methods || default` and `options.allowedHeaders || default`
(cors.js lines 19-20). -/
def normalizeOpt (dflt : List String) (v : OptVal) : OptVal :=
  if v.isTruthy then v else .arr dflt

/-- Default for `options.methods` (cors.js line 19). -/
def defaultMethods : List String := ["GET", "POST", "PUT", "DELETE", "PATCH", "HEAD"]

/-- Default for `options.allowedHeaders` (cors.js line 20). -/
def defaultHeaders : List String := ["Content-Type", "Authorization"]

/-- `if (!Array.isArray(v) || v.length === 0) throw ...` (cors.js
lines 28-34): a non-array or an empty array is rejected with the given
message, a non-empty array is accepted. -/
def validateList (errMsg : String) : OptVal → Except String (List String)
  | .arr [] => .error errMsg
  | .arr xs => .ok xs
  | _ => .error errMsg

/-- The `isOriginAllowed` IIFE (cors.js lines 37-60): wildcard check
first (`config.origin === '*'`, which only a string can satisfy), then
function, then string, then array, else a configuration error.  The
validator returns `Except` because a user-supplied function origin may
throw. -/
def mkOriginValidator : OriginOpt → Except String (String → Except String Bool)
  | .str s =>
      if s == "*" then .ok (fun _ => .ok true)
      else .ok (fun o => .ok (o == s))
  | .pred f => .ok f
  | .arr xs => .ok (fun o => .ok (xs.contains o))
  | _ => .error "origin must be a string, array, function, or \"*\""

/-- Options object passed to `createCors`. -/
structure CorsOptions where
  origin : OriginOpt
  methods : OptVal
  allowedHeaders : OptVal

/-- The state `createCors` closes over: normalized origin (re-examined at
request time by `config.origin === '*'`), validated method/header lists,
the origin validator, and the precomputed header strings
(cors.js lines 63-64). -/
structure CorsConfig where
  origin : OriginOpt
  methods : List String
  allowedHeaders : List String
  isOriginAllowed : String → Except String Bool
  methodsHeader : String
  headersHeader : String

/-- `createCors(options)` (cors.js lines 15-64): normalize options with
defaults, validate, build the origin validator and precompute the header
strings.  Construction errors are returned as `Except.error` with the
thrown message. -/
def createCors (opts : CorsOptions) : Except String CorsConfig :=
  if (normalizeOrigin opts.origin).isTruthy = false then .error "origin is required"
  else
    match validateList "methods must be a non-empty array"
        (normalizeOpt defaultMethods opts.methods) with
    | .error e => .error e
    | .ok ms =>
      match validateList "allowedHeaders must be a non-empty array"
          (normalizeOpt defaultHeaders opts.allowedHeaders) with
      | .error e => .error e
      | .ok hs =>
        match mkOriginValidator (normalizeOrigin opts.origin) with
        | .error e => .error e
        | .ok v =>
          .ok { origin := normalizeOrigin opts.origin
                methods := ms
                allowedHeaders := hs
                isOriginAllowed := v
                methodsHeader := String.intercalate ", " ms
                headersHeader := String.intercalate ", " hs }

/-- `config.origin === '*'` (cors.js lines 39 and 95): only the string
`'*'` satisfies the strict-equality test. -/
def OriginOpt.isWildcardStr : OriginOpt → Bool
  | .str s => s == "*"
  | _ => false

/-- Inbound request as seen by the middleware: `req.headers.origin`
(absent or a string) and `req.method`. -/
structure CorsRequest where
  origin : Option String
  method : String

/-- Truthiness of `req.headers.origin` (cors.js line 72): absent or the
empty string is falsy. -/
def reqOriginTruthy : Option String → Bool
  | none => false
  | some s => !(s == "")

/-- The string value of `req.headers.origin` when it is used. -/
def reqOriginStr : Option String → String
  | none => ""
  | some s => s

/-- Observable effect of one middleware invocation: headers set on the
response (in order), status written by `writeHead` (if any), whether
`res.end()` was called, and whether `next()` was called. -/
structure CorsResult where
  headers : List (String × String)
  status : Option Nat
  ended : Bool
  calledNext : Bool
deriving DecidableEq

/-- Header name constants. -/
def allowOriginKey : String := "Access-Control-Allow-Origin"

def allowMethodsKey : String := "Access-Control-Allow-Methods"

def allowHeadersKey : String := "Access-Control-Allow-Headers"

/-- The middleware returned by `createCors` (cors.js lines 67-109).
An `Except.error` result models an exception escaping into the
request-handling path (only possible from a user-supplied origin
function). -/
def corsMiddleware (cfg : CorsConfig) (req : CorsRequest) : Except String CorsResult :=
  if reqOriginTruthy req.origin = false then
    if req.method == "OPTIONS" then
      .ok { headers := [(allowMethodsKey, cfg.methodsHeader),
                        (allowHeadersKey, cfg.headersHeader)]
            status := some 204
            ended := true
            calledNext := false }
    else
      .ok { headers := [], status := none, ended := false, calledNext := true }
  else
    match cfg.isOriginAllowed (reqOriginStr req.origin) with
    | .error e => .error e
    | .ok false =>
      .ok { headers := [], status := none, ended := false, calledNext := true }
    | .ok true =>
      let allowOriginValue :=
        if cfg.origin.isWildcardStr then "*" else reqOriginStr req.origin
      let hdrs := [(allowOriginKey, allowOriginValue),
                   (allowMethodsKey, cfg.methodsHeader),
                   (allowHeadersKey, cfg.headersHeader)]
      if req.method == "OPTIONS" then
        .ok { headers := hdrs, status := some 204, ended := true, calledNext := false }
      else
        .ok { headers := hdrs, status := none, ended := false, calledNext := true }

/-- `Except` success test. -/
def exceptIsOk : Except String α → Bool
  | .ok _ => true
  | .error _ => false

/- ## Path Rewrite Engine (modelled from the spec) -/

/-- Character-list test: does `pat` occur at the start of `s`? -/
def leadsWith : List Char → List Char → Bool
  | [], _ => true
  | _ :: _, [] => false
  | a :: as, b :: bs => a == b && leadsWith as bs

/-- Modelled from the spec: the Path Rewrite Engine's object-rule
substitution (spec section 4.2); the source file implementing it
(`src/index.js`) is not in the snapshot.  A rule is a
pattern-replacement pair; patterns are JavaScript regexes, and every
documented rule is an anchored literal of the form `^X`, so the model
covers exactly that fragment: an anchored pattern whose literal part
occurs at the start of the path replaces it with the rule's
replacement, otherwise the path is unchanged; a pattern outside the
fragment is not modelled and leaves the path unchanged. -/
def applyRule (path : String) (rule : String × String) : String :=
  match rule.1.data with
  | '^' :: patChars =>
      if leadsWith patChars path.data then
        rule.2 ++ ⟨path.data.drop patChars.length⟩
      else path
  | _ => path

/-- Modelled from the spec: object-rule mode applies the rules in
configuration order, each tested against and substituted into the
current, possibly already-rewritten, value of the path
(spec section 4.2). -/
def rewriteObject (rules : List (String × String)) (path : String) : String :=
  rules.foldl applyRule path

/-- Modelled from the spec: the rewrite configuration is an ordered rule
list, a single function, or absent (spec sections 3 and 4.2). -/
inductive PathRewrite where
  | noRewrite
  | rules (rs : List (String × String))
  | fn (f : String → String)

/-- Modelled from the spec: `rewrite(originalPath)` — object rules are
chained, a function is applied once, and with no configuration the path
is unchanged (spec section 4.2). -/
def rewritePath : PathRewrite → String → String
  | .noRewrite, p => p
  | .rules rs, p => rewriteObject rs p
  | .fn f, p => f p

/- ## Target Descriptor and Forwarding Engine (modelled from the spec) -/

/-- Scheme of the Target Descriptor. -/
inductive Scheme where
  | http
  | https
deriving DecidableEq

/-- Modelled from the spec: the Target Descriptor, parsed once at
construction; only scheme, host and port are kept (spec section 3);
the source file implementing it (`src/index.js`) is not in the
snapshot. -/
structure TargetDescriptor where
  scheme : Scheme
  host : String
  port : Nat

/-- Inbound request as seen by the Forwarding Engine. -/
structure InboundRequest where
  method : String
  path : String
  query : String
  headers : List (String × String)
  body : String

/-- Outbound request issued to the upstream. -/
structure OutboundRequest where
  host : String
  port : Nat
  path : String
  query : String
  method : String
  headers : List (String × String)
  body : String

/-- Modelled from the spec: when `changeOrigin` is enabled the upstream
`Host` header is set to the target host:port; otherwise headers are
copied verbatim (spec section 4.5). -/
def setHostHeader (v : String) (hs : List (String × String)) : List (String × String) :=
  ("host", v) :: hs.filter (fun h => !(h.1 == "host"))

/-- Modelled from the spec: an empty rewrite output is replaced by `/`
so the outbound request path stays syntactically valid
(spec section 4.2). -/
def ensurePath (p : String) : String :=
  if p == "" then "/" else p

/-- Modelled from the spec: the Forwarding Engine builds the outbound
request with destination host/port taken from the Target Descriptor and
destination path taken from the Path Rewrite Engine's output; method,
query, body and headers are copied, the `Host` header being rewritten
only under `changeOrigin` (spec section 4.5); the source file
implementing it (`src/index.js`) is not in the snapshot. -/
def buildOutbound (target : TargetDescriptor) (rw : PathRewrite)
    (changeOrigin : Bool) (req : InboundRequest) : OutboundRequest :=
  { host := target.host
    port := target.port
    path := ensurePath (rewritePath rw req.path)
    query := req.query
    method := req.method
    headers :=
      if changeOrigin then
        setHostHeader (target.host ++ ":" ++ toString target.port) req.headers
      else req.headers
    body := req.body }

/-- Outcome of the outbound upstream call: a response, or a connection
failure (refused, DNS failure, timeout) carrying its cause. -/
inductive UpstreamOutcome where
  | response (status : Nat) (headers : List (String × String)) (body : String)
  | failure (cause : String)

/-- Body of the response returned to the inbound caller: the upstream
body passed through, or the engine's structured JSON error body. -/
inductive RespBody where
  | raw (s : String)
  | errJson (error : String) (message : String)
deriving DecidableEq

/-- Response returned to the inbound caller. -/
structure CallerResponse where
  status : Nat
  body : RespBody
deriving DecidableEq

/-- Modelled from the spec: on a successful upstream response, status and
body are passed through; on upstream connection failure the engine
answers with status 500 and the JSON body
`{error: "Proxy Error", message: <cause>}` (spec section 4.5; the tests
in the snapshot pin the status to 500); the source file implementing it
(`src/index.js`) is not in the snapshot.  The function is total: every
outcome yields exactly one complete response. -/
def respondToCaller : UpstreamOutcome → CallerResponse
  | .response s _ b => { status := s, body := .raw b }
  | .failure cause => { status := 500, body := .errJson "Proxy Error" cause }

/- ## Attack Detector (modelled from the spec) -/

/-- Modelled from the spec: drop the timestamps older than
`now - timeWindow` from a client's sequence (spec section 4.4); the
source file implementing the detector
(`src/plugins/attack-detector.js`) is not in the snapshot. -/
def pruneHits (timeWindow now : Nat) (ts : List Nat) : List Nat :=
  ts.filter (fun t => now ≤ t + timeWindow)

/-- Modelled from the spec: one qualifying event for a single client —
append the current timestamp, prune expired timestamps, and if the
pruned length reaches the threshold, trigger with the pruned length as
the hit count and clear the sequence (spec section 4.4).  The result is
the new sequence plus the triggered hit count, if any. -/
def observeHit (timeWindow threshold now : Nat) (ts : List Nat) :
    List Nat × Option Nat :=
  let pruned := pruneHits timeWindow now (ts ++ [now])
  if threshold ≤ pruned.length then ([], some pruned.length) else (pruned, none)

/-- One step of a run of qualifying events: thread the sequence and
collect the trigger invocations. -/
def detStep (timeWindow threshold : Nat) (acc : List Nat × List Nat)
    (now : Nat) : List Nat × List Nat :=
  let r := observeHit timeWindow threshold now acc.1
  (r.1, acc.2 ++ r.2.toList)

/-- Run the detector over a sequence of qualifying-event timestamps for
one client, starting from the empty sequence; returns the final
sequence and the list of hit counts passed to `onTrigger`, in order. -/
def runDetector (timeWindow threshold : Nat) (times : List Nat) :
    List Nat × List Nat :=
  times.foldl (detStep timeWindow threshold) ([], [])

/- ## Shared lemmas about createCors -/

/-- After normalization a falsy origin has become the truthy string
`'*'`, so the normalized origin is always truthy. -/
theorem normalizeOrigin_truthy (o : OriginOpt) :
    (normalizeOrigin o).isTruthy = true := by
  cases o with
  | absent => decide
  | falsy => decide
  | otherTruthy => decide
  | arr xs => rfl
  | pred f => rfl
  | str s =>
      by_cases hs : s = ""
      · subst hs; decide
      · have hb : (s == "") = false := by simp [hs]
        simp [normalizeOrigin, OriginOpt.isTruthy, hb]

/-- A non-empty array passes `validateList` unchanged. -/
theorem validateList_ok_of_arr {e : String} {ms l : List String}
    (h : validateList e (.arr ms) = .ok l) : l = ms := by
  cases ms with
  | nil => simp [validateList] at h
  | cons a as => simp [validateList] at h; simp [h]

/-- Inversion of a successful `createCors`: how each configuration field
is obtained from the options. -/
theorem createCors_fields {opts : CorsOptions} {cfg : CorsConfig}
    (h : createCors opts = .ok cfg) :
    cfg.origin = normalizeOrigin opts.origin ∧
    validateList "methods must be a non-empty array"
        (normalizeOpt defaultMethods opts.methods) = .ok cfg.methods ∧
    validateList "allowedHeaders must be a non-empty array"
        (normalizeOpt defaultHeaders opts.allowedHeaders) = .ok cfg.allowedHeaders ∧
    mkOriginValidator (normalizeOrigin opts.origin) = .ok cfg.isOriginAllowed ∧
    cfg.methodsHeader = String.intercalate ", " cfg.methods ∧
    cfg.headersHeader = String.intercalate ", " cfg.allowedHeaders := by
  unfold createCors at h
  rw [normalizeOrigin_truthy] at h
  simp only [Bool.true_eq_false, if_false] at h
  split at h
  · exact absurd h (by simp)
  · rename_i ms hms
    split at h
    · exact absurd h (by simp)
    · rename_i hs hhs
      split at h
      · exact absurd h (by simp)
      · rename_i v hv
        injection h with h
        subst h
        exact ⟨rfl, hms, hhs, hv, rfl, rfl⟩

/-- A concrete wildcard-origin configuration and the configuration
object `createCors` produces for it. -/
def wildcardOpts : CorsOptions :=
  { origin := .str "*", methods := .arr ["GET", "POST"],
    allowedHeaders := .arr ["Content-Type"] }

/-- The configuration produced by `createCors wildcardOpts`. -/
def wildcardCfg : CorsConfig :=
  { origin := .str "*", methods := ["GET", "POST"],
    allowedHeaders := ["Content-Type"],
    isOriginAllowed := fun _ => .ok true,
    methodsHeader := String.intercalate ", " ["GET", "POST"],
    headersHeader := String.intercalate ", " ["Content-Type"] }

/-- A concrete single-origin configuration. -/
def singleOriginOpts : CorsOptions :=
  { origin := .str "https://example.com", methods := .arr ["GET", "POST"],
    allowedHeaders := .arr ["Content-Type"] }

/-- The configuration produced by `createCors singleOriginOpts`. -/
def singleOriginCfg : CorsConfig :=
  { origin := .str "https://example.com", methods := ["GET", "POST"],
    allowedHeaders := ["Content-Type"],
    isOriginAllowed := fun o => .ok (o == "https://example.com"),
    methodsHeader := String.intercalate ", " ["GET", "POST"],
    headersHeader := String.intercalate ", " ["Content-Type"] }

/-- C5: for every request carrying an Origin header the configured rule
allows, the middleware sets `Access-Control-Allow-Origin` to the literal
`*` when the rule is the wildcard string `*` and to the exact request
origin otherwise, and sets `Access-Control-Allow-Methods` and
`Access-Control-Allow-Headers` to the configured lists joined verbatim
with a comma and a space. -/
theorem cors_allowed_sets_cors_headers
    (opts : CorsOptions) (cfg : CorsConfig) (ms hs : List String) (o m : String)
    (hc : createCors opts = .ok cfg)
    (hm : opts.methods = OptVal.arr ms)
    (hh : opts.allowedHeaders = OptVal.arr hs)
    (ho : o ≠ "")
    (hall : cfg.isOriginAllowed o = .ok true) :
    corsMiddleware cfg { origin := some o, method := m } =
      .ok { headers :=
              [(allowOriginKey,
                  if (normalizeOrigin opts.origin).isWildcardStr then "*" else o),
               (allowMethodsKey, String.intercalate ", " ms),
               (allowHeadersKey, String.intercalate ", " hs)]
            status := if m == "OPTIONS" then some 204 else none
            ended := (m == "OPTIONS")
            calledNext := !(m == "OPTIONS") } := by
  obtain ⟨horig, hvm, hvh, hval, hmh, hhh⟩ := createCors_fields hc
  rw [hm] at hvm
  rw [hh] at hvh
  simp only [normalizeOpt, OptVal.isTruthy, if_true] at hvm hvh
  have hcm : cfg.methods = ms := validateList_ok_of_arr hvm
  have hch : cfg.allowedHeaders = hs := validateList_ok_of_arr hvh
  have hbo : (o == "") = false := by simp [ho]
  simp only [corsMiddleware, reqOriginTruthy, reqOriginStr, hbo, Bool.not_false,
    Bool.true_eq_false, if_false, hall, hmh, hhh, hcm, hch, horig]
  cases hmo : (m == "OPTIONS") <;> simp [hmo]

/-- C5 witness at the wildcard configuration. -/
theorem cors_allowed_sets_cors_headers_witness :
    createCors wildcardOpts = .ok wildcardCfg ∧
    wildcardCfg.isOriginAllowed "https://any.example" = .ok true ∧
    corsMiddleware wildcardCfg { origin := some "https://any.example", method := "GET" } =
      .ok { headers := [(allowOriginKey, "*"),
                        (allowMethodsKey, String.intercalate ", " ["GET", "POST"]),
                        (allowHeadersKey, String.intercalate ", " ["Content-Type"])]
            status := none, ended := false, calledNext := true } :=
  ⟨rfl, rfl,
    cors_allowed_sets_cors_headers wildcardOpts wildcardCfg
      ["GET", "POST"] ["Content-Type"] "https://any.example" "GET"
      rfl rfl rfl (by decide) rfl⟩

/-- C6: an `OPTIONS` request with no Origin header is answered with
status 204, no body, the configured method and header allow-lists, no
`Access-Control-Allow-Origin` header, and the request is not passed to
the next handler. -/
theorem cors_preflight_without_origin
    (opts : CorsOptions) (cfg : CorsConfig) (m : String)
    (hc : createCors opts = .ok cfg) (hm : m = "OPTIONS") :
    corsMiddleware cfg { origin := none, method := m } =
      .ok { headers := [(allowMethodsKey, String.intercalate ", " cfg.methods),
                        (allowHeadersKey, String.intercalate ", " cfg.allowedHeaders)]
            status := some 204, ended := true, calledNext := false } := by
  obtain ⟨-, -, -, -, hmh, hhh⟩ := createCors_fields hc
  subst hm
  simp [corsMiddleware, reqOriginTruthy, hmh, hhh]

/-- C6 witness at the single-origin configuration. -/
theorem cors_preflight_without_origin_witness :
    createCors singleOriginOpts = .ok singleOriginCfg ∧
    corsMiddleware singleOriginCfg { origin := none, method := "OPTIONS" } =
      .ok { headers :=
              [(allowMethodsKey, String.intercalate ", " singleOriginCfg.methods),
               (allowHeadersKey, String.intercalate ", " singleOriginCfg.allowedHeaders)]
            status := some 204, ended := true, calledNext := false } :=
  ⟨rfl, cors_preflight_without_origin singleOriginOpts singleOriginCfg "OPTIONS" rfl rfl⟩

/-- C7: a request whose Origin header the configured rule rejects gets
no `Access-Control-*` headers, no status write, no `res.end`, and the
middleware invokes the next continuation — for every method, `OPTIONS`
included. -/
theorem cors_disallowed_continues_unchanged
    (opts : CorsOptions) (cfg : CorsConfig) (o m : String)
    (_hc : createCors opts = .ok cfg) (ho : o ≠ "")
    (hnot : cfg.isOriginAllowed o = .ok false) :
    corsMiddleware cfg { origin := some o, method := m } =
      .ok { headers := [], status := none, ended := false, calledNext := true } := by
  have hbo : (o == "") = false := by simp [ho]
  simp [corsMiddleware, reqOriginTruthy, reqOriginStr, hbo, hnot]

/-- C7 witness: a disallowed origin at the single-origin configuration,
on an `OPTIONS` request. -/
theorem cors_disallowed_continues_unchanged_witness :
    createCors singleOriginOpts = .ok singleOriginCfg ∧
    singleOriginCfg.isOriginAllowed "https://evil.com" = .ok false ∧
    corsMiddleware singleOriginCfg { origin := some "https://evil.com", method := "OPTIONS" } =
      .ok { headers := [], status := none, ended := false, calledNext := true } :=
  ⟨rfl, rfl,
    cors_disallowed_continues_unchanged singleOriginOpts singleOriginCfg
      "https://evil.com" "OPTIONS" rfl (by decide) rfl⟩

/- ## C8-C10: construction-time behavior of createCors -/

/-- `validateList` only ever fails with the message it was given. -/
theorem validateList_error_msg {e m : String} {v : OptVal}
    (h : validateList m v = .error e) : e = m := by
  cases v with
  | arr xs =>
      cases xs with
      | nil => simp [validateList] at h; exact h.symm
      | cons a as => simp [validateList] at h
  | absent => simp [validateList] at h; exact h.symm
  | falsy => simp [validateList] at h; exact h.symm
  | nonArr => simp [validateList] at h; exact h.symm

/-- A non-empty array passes `validateList` as itself. -/
theorem validateList_arr_ok (e : String) {ms : List String} (h : ms ≠ []) :
    validateList e (.arr ms) = .ok ms := by
  cases ms with
  | nil => exact absurd rfl h
  | cons a as => rfl

/-- `mkOriginValidator` only ever fails with the fixed shape-error
message. -/
theorem mkOriginValidator_error_msg {e : String} {o : OriginOpt}
    (h : mkOriginValidator o = .error e) :
    e = "origin must be a string, array, function, or \"*\"" := by
  cases o with
  | absent => simp [mkOriginValidator] at h; exact h.symm
  | falsy => simp [mkOriginValidator] at h; exact h.symm
  | otherTruthy => simp [mkOriginValidator] at h; exact h.symm
  | arr xs => simp [mkOriginValidator] at h
  | pred f => simp [mkOriginValidator] at h
  | str s =>
      simp only [mkOriginValidator] at h
      split at h <;> simp at h

/-- A string origin always yields a validator. -/
theorem mkOriginValidator_str_ok (t : String) :
    ∃ v, mkOriginValidator (.str t) = .ok v := by
  by_cases ht : (t == "*") = true
  · exact ⟨fun _ => .ok true, by simp [mkOriginValidator, ht]⟩
  · exact ⟨fun o => .ok (o == t), by simp [mkOriginValidator, ht]⟩

/-- Origin option shapes the validator construction accepts: anything
but a truthy value that is neither string, array nor function. -/
def originShapeOk : OriginOpt → Bool
  | .otherTruthy => false
  | _ => true

/-- An acceptable origin shape yields a validator after normalization. -/
theorem mkOriginValidator_norm_ok (og : OriginOpt) (hok : originShapeOk og = true) :
    ∃ v, mkOriginValidator (normalizeOrigin og) = .ok v := by
  cases og with
  | absent => exact ⟨_, rfl⟩
  | falsy => exact ⟨_, rfl⟩
  | arr xs => exact ⟨_, rfl⟩
  | pred f => exact ⟨_, rfl⟩
  | otherTruthy => simp [originShapeOk] at hok
  | str s =>
      have hnorm : ∃ t, normalizeOrigin (.str s) = .str t := by
        unfold normalizeOrigin
        split
        · exact ⟨s, rfl⟩
        · exact ⟨"*", rfl⟩
      obtain ⟨t, ht⟩ := hnorm
      rw [ht]
      exact mkOriginValidator_str_ok t

/-- A function origin rule that throws on every origin. -/
def throwingOriginFn : String → Except String Bool :=
  fun _ => .error "predicate exploded"

/-- Options carrying the throwing function origin rule. -/
def throwingOriginOpts : CorsOptions :=
  { origin := .pred throwingOriginFn, methods := .arr ["GET"],
    allowedHeaders := .arr ["Content-Type"] }

/-- The configuration `createCors` produces for `throwingOriginOpts`. -/
def throwingOriginCfg : CorsConfig :=
  { origin := .pred throwingOriginFn, methods := ["GET"],
    allowedHeaders := ["Content-Type"],
    isOriginAllowed := throwingOriginFn,
    methodsHeader := String.intercalate ", " ["GET"],
    headersHeader := String.intercalate ", " ["Content-Type"] }

/-- C8 counterexample: an origin rule that throws on every origin is
accepted by `createCors` without any construction-time error, and the
middleware propagates the thrown exception into the request-handling
path on the first request that carries an Origin header. -/
theorem cors_throwing_origin_fn_cex :
    createCors throwingOriginOpts = .ok throwingOriginCfg ∧
    corsMiddleware throwingOriginCfg
        { origin := some "https://a.example", method := "GET" } =
      .error "predicate exploded" :=
  ⟨rfl, rfl⟩

/-- C8 amended: `createCors` stores a function origin rule verbatim
without invoking it, so a throwing rule is not a construction error;
the exception surfaces at request time, on any request whose origin
makes the rule throw. -/
theorem cors_fn_origin_throws_at_request_time
    (opts : CorsOptions) (cfg : CorsConfig) (f : String → Except String Bool)
    (ho : opts.origin = .pred f)
    (hc : createCors opts = .ok cfg) :
    cfg.isOriginAllowed = f ∧
    ∀ o e m, o ≠ "" → f o = .error e →
      corsMiddleware cfg { origin := some o, method := m } = .error e := by
  obtain ⟨-, -, -, hval, -, -⟩ := createCors_fields hc
  rw [ho] at hval
  have hf : cfg.isOriginAllowed = f := by
    have hnorm : normalizeOrigin (.pred f) = .pred f := rfl
    rw [hnorm] at hval
    simp [mkOriginValidator] at hval
    exact hval.symm
  refine ⟨hf, ?_⟩
  intro o e m hne hfo
  have hbo : (o == "") = false := by simp [hne]
  simp [corsMiddleware, reqOriginTruthy, reqOriginStr, hbo, hf, hfo]

/-- C8 amended witness at the throwing-rule configuration. -/
theorem cors_fn_origin_throws_at_request_time_witness :
    createCors throwingOriginOpts = .ok throwingOriginCfg ∧
    throwingOriginCfg.isOriginAllowed = throwingOriginFn ∧
    corsMiddleware throwingOriginCfg
        { origin := some "https://b.example", method := "POST" } =
      .error "predicate exploded" :=
  ⟨rfl,
   (cors_fn_origin_throws_at_request_time throwingOriginOpts throwingOriginCfg
      throwingOriginFn rfl rfl).1,
   (cors_fn_origin_throws_at_request_time throwingOriginOpts throwingOriginCfg
      throwingOriginFn rfl rfl).2 "https://b.example" "predicate exploded" "POST"
      (by decide) rfl⟩

/-- Options whose `methods` entry is present but falsy (e.g. supplied as
the empty string or `0`). -/
def falsyMethodsOpts : CorsOptions :=
  { origin := .absent, methods := .falsy, allowedHeaders := .absent }

/-- The configuration `createCors` produces for `falsyMethodsOpts`. -/
def falsyMethodsCfg : CorsConfig :=
  { origin := .str "*", methods := defaultMethods,
    allowedHeaders := defaultHeaders,
    isOriginAllowed := fun _ => .ok true,
    methodsHeader := String.intercalate ", " defaultMethods,
    headersHeader := String.intercalate ", " defaultHeaders }

/-- C9 counterexample: a `methods` option that is present but falsy is
not a non-empty array, yet `createCors` does not raise — the value is
silently replaced by the default method list before validation. -/
theorem cors_falsy_methods_cex :
    createCors falsyMethodsOpts = .ok falsyMethodsCfg ∧
    falsyMethodsCfg.methods = defaultMethods :=
  ⟨rfl, rfl⟩

/-- C9 amended: `createCors` raises the list-validation errors exactly
for truthy non-array or empty-array `methods`/`allowedHeaders` values,
while present-but-falsy values are silently replaced by the defaults
before validation; with non-empty arrays (and an acceptable origin
shape) construction succeeds with those arrays, and no request-time
evaluation revalidates them — the middleware can only fail through a
user-supplied origin function. -/
theorem cors_list_options_validation :
    (∀ opts : CorsOptions, opts.methods = .nonArr ∨ opts.methods = .arr [] →
        createCors opts = .error "methods must be a non-empty array") ∧
    (∀ (opts : CorsOptions) (ms : List String), opts.methods = .arr ms → ms ≠ [] →
        opts.allowedHeaders = .nonArr ∨ opts.allowedHeaders = .arr [] →
        createCors opts = .error "allowedHeaders must be a non-empty array") ∧
    (∀ opts : CorsOptions, opts.methods = .falsy ∨ opts.methods = .absent →
        createCors opts = createCors { opts with methods := .arr defaultMethods }) ∧
    (∀ opts : CorsOptions, opts.allowedHeaders = .falsy ∨ opts.allowedHeaders = .absent →
        createCors opts = createCors { opts with allowedHeaders := .arr defaultHeaders }) ∧
    (∀ (og : OriginOpt) (ms hs : List String), ms ≠ [] → hs ≠ [] →
        originShapeOk og = true →
        ∃ cfg,
          createCors { origin := og, methods := .arr ms, allowedHeaders := .arr hs } =
            .ok cfg ∧ cfg.methods = ms ∧ cfg.allowedHeaders = hs) ∧
    (∀ (cfg : CorsConfig) (req : CorsRequest),
        (∀ o, exceptIsOk (cfg.isOriginAllowed o) = true) →
        exceptIsOk (corsMiddleware cfg req) = true) := by
  refine ⟨?_, ?_, ?_, ?_, ?_, ?_⟩
  · intro opts h
    have hm : validateList "methods must be a non-empty array"
        (normalizeOpt defaultMethods opts.methods) =
          .error "methods must be a non-empty array" := by
      rcases h with h | h <;> rw [h] <;> rfl
    unfold createCors
    rw [normalizeOrigin_truthy]
    simp [hm]
  · intro opts ms hms hne h
    have hm : validateList "methods must be a non-empty array"
        (normalizeOpt defaultMethods opts.methods) = .ok ms := by
      rw [hms]
      exact validateList_arr_ok _ hne
    have hh : validateList "allowedHeaders must be a non-empty array"
        (normalizeOpt defaultHeaders opts.allowedHeaders) =
          .error "allowedHeaders must be a non-empty array" := by
      rcases h with h | h <;> rw [h] <;> rfl
    unfold createCors
    rw [normalizeOrigin_truthy]
    simp [hm, hh]
  · intro opts h
    obtain ⟨og, m, ah⟩ := opts
    rcases h with h | h <;> (cases h; rfl)
  · intro opts h
    obtain ⟨og, m, ah⟩ := opts
    rcases h with h | h <;> (cases h; rfl)
  · intro og ms hs hms hhs hok
    obtain ⟨v, hv⟩ := mkOriginValidator_norm_ok og hok
    refine ⟨{ origin := normalizeOrigin og, methods := ms, allowedHeaders := hs,
              isOriginAllowed := v,
              methodsHeader := String.intercalate ", " ms,
              headersHeader := String.intercalate ", " hs }, ?_, rfl, rfl⟩
    unfold createCors
    rw [normalizeOrigin_truthy]
    simp [normalizeOpt, OptVal.isTruthy, validateList_arr_ok _ hms,
      validateList_arr_ok _ hhs, hv]
  · intro cfg req hok
    unfold corsMiddleware
    split
    · split <;> rfl
    · have hr := hok (reqOriginStr req.origin)
      cases hres : cfg.isOriginAllowed (reqOriginStr req.origin) with
      | error e => rw [hres] at hr; simp [exceptIsOk] at hr
      | ok b =>
          cases b with
          | false => simp [hres, exceptIsOk]
          | true => simp only [hres]; split <;> rfl

/-- C9 witness: a truthy non-array raises, an empty headers array
raises, and a falsy `methods` is replaced by the defaults. -/
theorem cors_list_options_validation_witness :
    createCors { origin := .absent, methods := .nonArr, allowedHeaders := .absent } =
      .error "methods must be a non-empty array" ∧
    createCors { origin := .absent, methods := .arr ["GET"], allowedHeaders := .arr [] } =
      .error "allowedHeaders must be a non-empty array" ∧
    createCors falsyMethodsOpts =
      createCors { falsyMethodsOpts with methods := .arr defaultMethods } :=
  ⟨cors_list_options_validation.1 _ (Or.inl rfl),
   cors_list_options_validation.2.1 _ ["GET"] rfl (by simp) (Or.inr rfl),
   cors_list_options_validation.2.2.1 falsyMethodsOpts (Or.inl rfl)⟩

/-- C10: every falsy origin option normalizes to the wildcard string
before the required-origin check, the `origin is required` error is
unreachable for every input, and an empty-string origin configures the
middleware exactly as the wildcard `*` does. -/
theorem cors_origin_required_unreachable :
    (∀ o : OriginOpt, o.isTruthy = false → normalizeOrigin o = .str "*") ∧
    (∀ opts : CorsOptions, createCors opts ≠ .error "origin is required") ∧
    (∀ m a, createCors { origin := .str "", methods := m, allowedHeaders := a } =
        createCors { origin := .str "*", methods := m, allowedHeaders := a }) := by
  refine ⟨?_, ?_, ?_⟩
  · intro o h
    unfold normalizeOrigin
    rw [h]
    rfl
  · intro opts h
    unfold createCors at h
    rw [normalizeOrigin_truthy] at h
    simp only [Bool.true_eq_false, if_false] at h
    split at h
    · rename_i e he
      cases validateList_error_msg he
      injection h with h
      exact absurd h (by decide)
    · split at h
      · rename_i e he
        cases validateList_error_msg he
        injection h with h
        exact absurd h (by decide)
      · split at h
        · rename_i e he
          cases mkOriginValidator_error_msg he
          injection h with h
          exact absurd h (by decide)
        · simp at h
  · intro m a
    rfl

/-- C10 witness: the falsy origin values and the empty-string origin at
a concrete configuration. -/
theorem cors_origin_required_unreachable_witness :
    OriginOpt.falsy.isTruthy = false ∧
    normalizeOrigin .falsy = .str "*" ∧
    createCors { origin := .str "", methods := .arr ["GET"],
                 allowedHeaders := .arr ["Content-Type"] } =
      createCors { origin := .str "*", methods := .arr ["GET"],
                   allowedHeaders := .arr ["Content-Type"] } :=
  ⟨rfl, cors_origin_required_unreachable.1 .falsy rfl,
   cors_origin_required_unreachable.2.2 (.arr ["GET"]) (.arr ["Content-Type"])⟩

/- ## C1, C2, C4: forwarding engine -/

/-- C1: the outbound upstream request's host and port equal the Target
Descriptor's for every inbound request, and two inbound requests that
differ only in headers, query string or body produce outbound requests
with the same host and port — the caller cannot move the target. -/
theorem forward_fixed_target (t : TargetDescriptor) (prw : PathRewrite) (co : Bool) :
    (∀ req : InboundRequest,
        (buildOutbound t prw co req).host = t.host ∧
        (buildOutbound t prw co req).port = t.port) ∧
    (∀ r1 r2 : InboundRequest, r1.path = r2.path →
        (buildOutbound t prw co r1).host = (buildOutbound t prw co r2).host ∧
        (buildOutbound t prw co r1).port = (buildOutbound t prw co r2).port) :=
  ⟨fun _ => ⟨rfl, rfl⟩, fun _ _ _ => ⟨rfl, rfl⟩⟩

/-- C1 witness: a request with hostile `Host`/`X-Forwarded-Host`
headers, a `target` query parameter and a body reaches the same
upstream host and port as a bare request for the same path. -/
theorem forward_fixed_target_witness :
    ("/x" : String) = "/x" ∧
    (buildOutbound { scheme := .http, host := "up", port := 9000 } .noRewrite true
        { method := "GET", path := "/x", query := "target=evil.com",
          headers := [("host", "evil.com"), ("x-forwarded-host", "evil.com")],
          body := "payload" }).host =
      (buildOutbound { scheme := .http, host := "up", port := 9000 } .noRewrite true
        { method := "GET", path := "/x", query := "",
          headers := [], body := "" }).host ∧
    (buildOutbound { scheme := .http, host := "up", port := 9000 } .noRewrite true
        { method := "GET", path := "/x", query := "target=evil.com",
          headers := [("host", "evil.com"), ("x-forwarded-host", "evil.com")],
          body := "payload" }).port =
      (buildOutbound { scheme := .http, host := "up", port := 9000 } .noRewrite true
        { method := "GET", path := "/x", query := "",
          headers := [], body := "" }).port :=
  ⟨rfl,
   ((forward_fixed_target { scheme := .http, host := "up", port := 9000 }
      .noRewrite true).2 _ _ rfl).1,
   ((forward_fixed_target { scheme := .http, host := "up", port := 9000 }
      .noRewrite true).2 _ _ rfl).2⟩

/-- C2: object rules are applied in configuration order, each tested
against and substituted into the current, possibly already-rewritten
value of the path; in particular the single rule `^/api -> ""` rewrites
`/api/users` to `/users`. -/
theorem rewrite_rules_chained :
    (∀ (r : String × String) (rs : List (String × String)) (p : String),
        rewriteObject (r :: rs) p = rewriteObject rs (applyRule p r)) ∧
    rewriteObject [("^/api", "")] "/api/users" = "/users" := by
  constructor
  · intro r rs p
    rfl
  · rfl

/-- C4: every upstream connection failure produces a response to the
inbound caller with a 5xx status and the JSON error body whose `error`
field is the string `Proxy Error` and whose `message` field carries the
cause; `respondToCaller` is total, so exactly one complete response is
produced for every outcome. -/
theorem upstream_failure_proxy_error (cause : String) :
    500 ≤ (respondToCaller (.failure cause)).status ∧
    (respondToCaller (.failure cause)).status < 600 ∧
    (respondToCaller (.failure cause)).body = .errJson "Proxy Error" cause := by
  refine ⟨?_, ?_, rfl⟩
  · show (500 : Nat) ≤ 500
    decide
  · show (500 : Nat) < 600
    decide

/- ## C3: attack detector sliding window -/

/-- When every recorded and incoming timestamp lies within one window of
a common base, pruning drops nothing, and while the count stays below
the threshold no trigger fires: the fold just accumulates the
timestamps. -/
theorem detFold_all_kept (W T lo : Nat) :
    ∀ (future st trig : List Nat),
      (∀ t ∈ st, lo ≤ t ∧ t ≤ lo + W) →
      (∀ t ∈ future, lo ≤ t ∧ t ≤ lo + W) →
      st.length + future.length < T →
      future.foldl (detStep W T) (st, trig) = (st ++ future, trig) := by
  intro future
  induction future with
  | nil =>
      intro st trig _ _ _
      simp
  | cons now fs ih =>
      intro st trig hst hfu hlen
      have hnow : lo ≤ now ∧ now ≤ lo + W := hfu now (by simp)
      have hpr : pruneHits W now (st ++ [now]) = st ++ [now] := by
        apply List.filter_eq_self.mpr
        intro t ht
        simp only [decide_eq_true_eq]
        rcases List.mem_append.mp ht with h | h
        · have := hst t h
          omega
        · simp at h
          omega
      have hobs : observeHit W T now st = (st ++ [now], none) := by
        unfold observeHit
        rw [hpr]
        simp only [List.length_append, List.length_cons, List.length_nil]
        simp only [List.length_cons] at hlen
        rw [if_neg (by omega)]
      have hstep : detStep W T (st, trig) now = (st ++ [now], trig) := by
        simp [detStep, hobs]
      rw [List.foldl_cons, hstep,
        ih (st ++ [now]) trig
          (by
            intro t ht
            rcases List.mem_append.mp ht with h | h
            · exact hst t h
            · simp at h
              subst h
              exact hnow)
          (fun t ht => hfu t (by simp [ht]))
          (by
            simp only [List.length_append, List.length_cons, List.length_nil]
            simp only [List.length_cons] at hlen
            omega)]
      simp

/-- C3: for a detector with threshold `T > 0` and window `W`, on a
single client: `T − 1` qualifying hits all within one window never
trigger; the `T`-th hit within the window triggers exactly once, with
the pruned sequence length as the hit count, and clears the sequence;
a timestamp more than `W` older than the current hit is dropped by
pruning; and the threshold comparison is made on the pruned sequence. -/
theorem attack_detector_threshold_window (W T : Nat) (hT : 0 < T) :
    (∀ (lo : Nat) (times : List Nat),
        (∀ t ∈ times, lo ≤ t ∧ t ≤ lo + W) → times.length = T - 1 →
        runDetector W T times = (times, [])) ∧
    (∀ (lo : Nat) (times : List Nat),
        (∀ t ∈ times, lo ≤ t ∧ t ≤ lo + W) → times.length = T →
        runDetector W T times = ([], [T])) ∧
    (∀ (now t : Nat) (ts : List Nat), t + W < now →
        t ∉ pruneHits W now (ts ++ [now])) ∧
    (∀ (now : Nat) (ts : List Nat),
        observeHit W T now ts =
          if T ≤ (pruneHits W now (ts ++ [now])).length
          then ([], some (pruneHits W now (ts ++ [now])).length)
          else (pruneHits W now (ts ++ [now]), none)) := by
  refine ⟨?_, ?_, ?_, ?_⟩
  · intro lo times hb hlen
    unfold runDetector
    rw [detFold_all_kept W T lo times [] [] (by simp) hb (by simp [hlen]; omega)]
    simp
  · intro lo times hb hlen
    have hne : times ≠ [] := by
      intro h
      rw [h] at hlen
      simp at hlen
      omega
    have hdecomp : times.dropLast ++ [times.getLast hne] = times :=
      List.dropLast_append_getLast hne
    have hbd : ∀ t ∈ times.dropLast, lo ≤ t ∧ t ≤ lo + W := by
      intro t ht
      refine hb t ?_
      rw [← hdecomp]
      exact List.mem_append.mpr (Or.inl ht)
    have hlast : lo ≤ times.getLast hne ∧ times.getLast hne ≤ lo + W :=
      hb _ (List.getLast_mem hne)
    have hlen' : times.dropLast.length = T - 1 := by
      rw [List.length_dropLast, hlen]
    have hpr : pruneHits W (times.getLast hne)
        (times.dropLast ++ [times.getLast hne]) =
        times.dropLast ++ [times.getLast hne] := by
      apply List.filter_eq_self.mpr
      intro x hx
      simp only [decide_eq_true_eq]
      rcases List.mem_append.mp hx with h | h
      · have := hbd x h
        omega
      · simp at h
        omega
    have hlength : (times.dropLast ++ [times.getLast hne]).length = T := by
      simp only [List.length_append, List.length_cons, List.length_nil, hlen']
      omega
    have hobs : observeHit W T (times.getLast hne) times.dropLast = ([], some T) := by
      unfold observeHit
      rw [hpr]
      simp [hlength]
    have hstep : detStep W T (times.dropLast, []) (times.getLast hne) = ([], [T]) := by
      simp [detStep, hobs]
    unfold runDetector
    rw [← hdecomp, List.foldl_append,
      detFold_all_kept W T lo times.dropLast [] [] (by simp) hbd
        (by simp [hlen']; omega)]
    simp only [List.nil_append, List.foldl_cons, List.foldl_nil]
    exact hstep
  · intro now t ts hlt
    intro hmem
    rw [pruneHits, List.mem_filter] at hmem
    have h2 := hmem.2
    simp only [decide_eq_true_eq] at h2
    omega
  · intro now ts
    rfl

/-- C3 witness: window 1000, threshold 2 — one hit does not trigger, a
second hit 100 apart triggers once with `hits = 2` and clears the
sequence, and a timestamp 1100 older than the current hit is pruned. -/
theorem attack_detector_threshold_window_witness :
    (0 : Nat) < 2 ∧
    runDetector 1000 2 [0] = ([0], []) ∧
    runDetector 1000 2 [0, 100] = ([], [2]) ∧
    (100 : Nat) + 1000 < 1200 ∧
    100 ∉ pruneHits 1000 1200 ([100] ++ [1200]) :=
  ⟨by decide,
   (attack_detector_threshold_window 1000 2 (by decide)).1 0 [0]
     (by decide) rfl,
   (attack_detector_threshold_window 1000 2 (by decide)).2.1 0 [0, 100]
     (by decide) rfl,
   by decide,
   (attack_detector_threshold_window 1000 2 (by decide)).2.2.1 1200 100 [100]
     (by decide)⟩
